import Mathlib

/-!
Verification development for the zoning-agent retrieval-augmented
fact-extraction pipeline.  The definitions below are shallow embeddings of
the Python source (src/app/api_backup.py, src/app/extractors.py,
src/app/zoning_rag.py); Python floats are modelled as exact rationals and
Python dict/JSON values as an inductive value type.
-/

namespace ZoningAgent

/-- Untyped fact values as they come out of the JSON extractor: absent/null,
a number, free text, or a list of strings.  (The derivation endpoints only
ever read these shapes out of the fact record; a nested object in a
dimensional field would make the Python arithmetic raise and the request
fail with a 500, which is outside the per-field claims below.) -/
inductive Value where
  | vnull : Value
  | vnum (q : ℚ) : Value
  | vstr (s : String) : Value
  | vlist (l : List String) : Value
deriving DecidableEq

/-- Python truthiness of an `Optional[float]`: `None` and `0.0` are falsy. -/
def otruthy : Option ℚ → Bool
  | none => false
  | some q => decide (q ≠ 0)

/-- `x or 0.0` on an `Optional[float]` (api_backup.py lines 437-439). -/
def pyOrZero (v : Option ℚ) : ℚ := if otruthy v then v.getD 0 else 0

/-- Numeric value of a digit character. -/
def digitVal (c : Char) : ℕ := c.toNat - 48

/-- Value of a digit string read in base 10 (empty list reads as 0). -/
def natOfDigits (l : List Char) : ℕ := l.foldl (fun a c => a * 10 + digitVal c) 0

/-- Rational value of an integer digit part plus a fractional digit part. -/
def ratOfParts (ip fp : List Char) : ℚ :=
  (natOfDigits ip : ℚ) + (natOfDigits fp : ℚ) / (10 : ℚ) ^ fp.length

/-- Leftmost match of the regex `[0-9]+(?:\.[0-9]+)?` in a character list:
returns the integer digits and the (possibly empty) fractional digits of the
first numeric substring, or `none` when the text has no digit
(api_backup.py line 431, `re.findall(...)` taking `m[0]`). -/
def firstNumAux : List Char → Option (List Char × List Char)
  | [] => none
  | c :: rest =>
    if c.isDigit then
      let ip := (c :: rest).takeWhile Char.isDigit
      let r1 := (c :: rest).dropWhile Char.isDigit
      match r1 with
      | '.' :: d :: r2 =>
        if d.isDigit then some (ip, (d :: r2).takeWhile Char.isDigit)
        else some (ip, [])
      | _ => some (ip, [])
    else firstNumAux rest

/-- Parsed value of the first decimal-or-integer numeric substring of a text,
`none` when no numeric substring exists. -/
def firstNumber (s : List Char) : Option ℚ :=
  (firstNumAux s).map (fun p => ratOfParts p.1 p.2)

/-- The apostrophe character used by Python `repr` on strings. -/
def quoteChar : Char := '\x27'

/-- `str(value)` for a Python list of strings as fed to the regex scan in
`num` (quote-escaping inside entries is not modelled; it cannot change
which digit runs the scan sees for the entries the pipeline produces). -/
def pyReprList (l : List String) : String :=
  "[" ++ String.intercalate ", "
    (l.map (fun e => String.mk (quoteChar :: e.data ++ [quoteChar]))) ++ "]"

/-- The numeric coercion routine `num(value)` of the envelope endpoint
(api_backup.py lines 423-434): `None` stays unavailable, numbers pass
through as floats, anything else is stringified and scanned for the first
decimal-or-integer substring, unavailable when no match. -/
def num : Value → Option ℚ
  | Value.vnull => none
  | Value.vnum q => some q
  | Value.vstr s => firstNumber s.data
  | Value.vlist l => firstNumber (pyReprList l).data

/-- A zoning fact record as consumed by the two derivation endpoints: the
fields `zoning_envelope_calc` and `go_no_go` actually read, each untyped
(api_backup.py lines 437-446, 513-515, 534-536). -/
structure Facts where
  front_setback_ft : Value
  side_setback_ft : Value
  rear_setback_ft : Value
  max_height_ft : Value
  max_stories : Value
  lot_coverage_max : Value
  floor_area_ratio : Value
  permitted_uses : Value
  conditional_uses : Value
  prohibited_uses : Value
deriving DecidableEq

/-- The in-line percentage normalization of `lot_coverage_max`
(api_backup.py lines 443-445): `if lot_coverage_max and lot_coverage_max >
1.5: lot_coverage_max = lot_coverage_max / 100.0`. -/
def normalizeCoverage (q : ℚ) : ℚ :=
  if q ≠ 0 ∧ 1.5 < q then q / 100 else q

/-- The numeric outputs of the `/zoning/envelope-calc` endpoint. -/
structure EnvelopeResult where
  lot_area : ℚ
  front : ℚ
  side : ℚ
  rear : ℚ
  max_height_ft : Option ℚ
  max_stories : Option ℚ
  lot_coverage_max : Option ℚ
  far : Option ℚ
  buildable_width : ℚ
  buildable_depth : ℚ
  geometric_footprint : ℚ
  coverage_cap : Option ℚ
  max_footprint : ℚ
  max_floor_area_by_far : Option ℚ
  est_max_stories_from_height : Option ℤ
deriving DecidableEq

/-- The envelope derivation of `zoning_envelope_calc` (api_backup.py lines
414, 436-456), from the request lot dimensions and the extracted fact
record.  All `if x`/`if x else None` guards are Python truthiness. -/
def zoning_envelope_calc (lot_width_ft lot_depth_ft : ℚ) (facts : Facts) :
    EnvelopeResult :=
  let lot_area := lot_width_ft * lot_depth_ft
  let front := pyOrZero (num facts.front_setback_ft)
  let side := pyOrZero (num facts.side_setback_ft)
  let rear := pyOrZero (num facts.rear_setback_ft)
  let max_height_ft := num facts.max_height_ft
  let max_stories := num facts.max_stories
  let lot_coverage_max := (num facts.lot_coverage_max).map normalizeCoverage
  let far := num facts.floor_area_ratio
  let buildable_width := max (lot_width_ft - 2 * side) 0
  let buildable_depth := max (lot_depth_ft - (front + rear)) 0
  let geometric_footprint := max (buildable_width * buildable_depth) 0
  let coverage_cap : Option ℚ :=
    match lot_coverage_max with
    | some q => if q ≠ 0 then some (lot_area * q) else none
    | none => none
  let max_footprint :=
    match coverage_cap with
    | some c => if c ≠ 0 then min geometric_footprint c else geometric_footprint
    | none => geometric_footprint
  let max_floor_area_by_far : Option ℚ :=
    match far with
    | some f => if f ≠ 0 then some (f * lot_area) else none
    | none => none
  let est_max_stories_from_height : Option ℤ :=
    match max_height_ft with
    | some h => if h ≠ 0 then some ⌊h / 12⌋ else none
    | none => none
  { lot_area := lot_area
    front := front
    side := side
    rear := rear
    max_height_ft := max_height_ft
    max_stories := max_stories
    lot_coverage_max := lot_coverage_max
    far := far
    buildable_width := buildable_width
    buildable_depth := buildable_depth
    geometric_footprint := geometric_footprint
    coverage_cap := coverage_cap
    max_footprint := max_footprint
    max_floor_area_by_far := max_floor_area_by_far
    est_max_stories_from_height := est_max_stories_from_height }

/-- Trailing and leading whitespace stripped, as Python `float(str)` allows. -/
def stripWs (s : List Char) : List Char :=
  ((s.dropWhile Char.isWhitespace).reverse.dropWhile Char.isWhitespace).reverse

/-- Digits of a float exponent (must be nonempty and all digits). -/
def parseExpDigits (s : List Char) : Option ℤ :=
  if s.isEmpty then none
  else if s.all Char.isDigit then some ((natOfDigits s : ℤ)) else none

/-- Float exponent after the `e`, with optional sign. -/
def parseExp : List Char → Option ℤ
  | '+' :: r => parseExpDigits r
  | '-' :: r => (parseExpDigits r).map (fun z => -z)
  | r => parseExpDigits r

/-- Mantissa of a Python float literal: `digits`, `digits.digits?` or
`.digits`; returns its value and the unconsumed rest. -/
def parseMantissa (s : List Char) : Option (ℚ × List Char) :=
  let ip := s.takeWhile Char.isDigit
  let r1 := s.dropWhile Char.isDigit
  match r1 with
  | '.' :: r2 =>
    let fp := r2.takeWhile Char.isDigit
    let r3 := r2.dropWhile Char.isDigit
    if ip.isEmpty ∧ fp.isEmpty then none else some (ratOfParts ip fp, r3)
  | _ => if ip.isEmpty then none else some (ratOfParts ip [], r1)

/-- Rest of a Python float literal after the optional sign. -/
def pyFloatTail (sign : ℚ) (t : List Char) : Option ℚ :=
  match parseMantissa t with
  | none => none
  | some (m, rest) =>
    match rest with
    | [] => some (sign * m)
    | 'e' :: r => (parseExp r).map (fun z => sign * m * (10 : ℚ) ^ z)
    | 'E' :: r => (parseExp r).map (fun z => sign * m * (10 : ℚ) ^ z)
    | _ => none

/-- Strict parse of a whole string as a Python float, the semantics of
`float(str)`: optional surrounding whitespace, optional sign, decimal
mantissa, optional exponent; anything else (for example `"10 ft"`) fails.
The special forms `inf`/`nan` and underscored literals are not modelled:
the extraction pipeline never produces them and no claim touches them. -/
def pyFloatStr (s : List Char) : Option ℚ :=
  match stripWs s with
  | '+' :: r => pyFloatTail 1 r
  | '-' :: r => pyFloatTail (-1) r
  | r => pyFloatTail 1 r

/-- The helper `n(x)` of the `go_no_go` endpoint (api_backup.py lines
537-541): `float(x)` under `try`, `None` on any exception.  `float(None)`
and `float`(list) raise `TypeError`, so those map to `None`. -/
def pyFloat : Value → Option ℚ
  | Value.vnum q => some q
  | Value.vstr s => pyFloatStr s.data
  | Value.vnull => none
  | Value.vlist _ => none

/-- The three terminal feasibility states of the go/no-go screen. -/
inductive Rating where
  | go : Rating
  | caution : Rating
  | noGo : Rating
deriving DecidableEq

def reasonProhibited : String := "Proposed use appears prohibited in district"

def reasonByRight : String := "Proposed use appears permitted by right"

def reasonConditional : String :=
  "Proposed use likely requires special/conditional approval"

def reasonUnclear : String := "Use permission unclear from code snippets"

def reasonSetbacks : String := "Setbacks consume lot; no buildable footprint"

/-- `str.lower()` on the characters of a string (the sources only hold
ASCII, where Python `lower` and `Char.toLower` agree). -/
def lowerStr (s : String) : String := String.mk (s.data.map Char.toLower)

/-- `[u.lower() for u in (facts.get(k) or [])]` (api_backup.py lines
513-515): null/absent and the empty string give the empty list, a list is
lowered elementwise, and a nonempty bare string iterates Python-style over
its characters.  A number in a use-list field would raise `TypeError` and
fail the whole request with a 500; that shape is excluded by the
`usesListish` hypothesis of the theorems. -/
def lowerUses : Value → List String
  | Value.vnull => []
  | Value.vlist l => l.map lowerStr
  | Value.vstr s => s.data.map (fun c => String.mk [c.toLower])
  | Value.vnum _ => []

/-- The use-list fields a request can reach without raising: anything but a
bare number. -/
def usesListish : Value → Bool
  | Value.vnum _ => false
  | _ => true

/-- Whether the first list is a prefix of the second. -/
def isPrefixList : List Char → List Char → Bool
  | [], _ => true
  | _ :: _, [] => false
  | a :: as, b :: bs => a == b && isPrefixList as bs

/-- Whether the first list occurs contiguously inside the second. -/
def isInfixList (p : List Char) : List Char → Bool
  | [] => isPrefixList p []
  | c :: rest => isPrefixList p (c :: rest) || isInfixList p rest

/-- Python `pu in u`: the first string occurs as a contiguous substring of
the second. -/
def substrMatch (pu u : String) : Bool := isInfixList pu.data u.data

/-- `any(pu in u for u in l)`. -/
def matchesAny (pu : String) (l : List String) : Bool :=
  l.any (fun u => substrMatch pu u)

/-- The use-based phase of `go_no_go` (api_backup.py lines 513-531): the
proposed use is lowered and matched, in order, against the lowered
prohibited, by-right and conditional lists; no match leaves the default
Caution with the unclear reason. -/
def useRating (proposed_use : String) (facts : Facts) : Rating × List String :=
  let pu := lowerStr proposed_use
  if matchesAny pu (lowerUses facts.prohibited_uses) then
    (Rating.noGo, [reasonProhibited])
  else if matchesAny pu (lowerUses facts.permitted_uses) then
    (Rating.go, [reasonByRight])
  else if matchesAny pu (lowerUses facts.conditional_uses) then
    (Rating.caution, [reasonConditional])
  else (Rating.caution, [reasonUnclear])

/-- Result of the `/zoning/go-no-go` endpoint: rating and reasons. -/
structure FeasibilityResult where
  rating : Rating
  reasons : List String
deriving DecidableEq

/-- The `go_no_go` endpoint (api_backup.py lines 501-547): use-based rating
followed by the dimensional sanity check.  The guard is Python truthiness
on the optional lot dimensions and `is not None` on `float`-coerced
setbacks; when the buildable width or depth is not positive the rating is
forced to No-Go and a reason is appended. -/
def go_no_go (proposed_use : String) (facts : Facts)
    (lot_width_ft lot_depth_ft : Option ℚ) : FeasibilityResult :=
  let u := useRating proposed_use facts
  let front := pyFloat facts.front_setback_ft
  let side := pyFloat facts.side_setback_ft
  let rear := pyFloat facts.rear_setback_ft
  if otruthy lot_width_ft ∧ otruthy lot_depth_ft ∧
      side.isSome ∧ front.isSome ∧ rear.isSome then
    let bw := lot_width_ft.getD 0 - 2 * side.getD 0
    let bd := lot_depth_ft.getD 0 - (front.getD 0 + rear.getD 0)
    if bw ≤ 0 ∨ bd ≤ 0 then
      { rating := Rating.noGo, reasons := u.2 ++ [reasonSetbacks] }
    else { rating := u.1, reasons := u.2 }
  else { rating := u.1, reasons := u.2 }

/-- JSON values, the shape of `json.loads` output. -/
inductive Json where
  | jnull : Json
  | jbool (b : Bool) : Json
  | jnum (q : ℚ) : Json
  | jstr (s : String) : Json
  | jarr (l : List Json) : Json
  | jobj (l : List (String × Json)) : Json

/-- JSON insignificant whitespace. -/
def jsonWs (c : Char) : Bool := c == ' ' || c == '\t' || c == '\n' || c == '\r'

/-- Drop leading JSON whitespace. -/
def skipWs (s : List Char) : List Char := s.dropWhile jsonWs

/-- Value of one hexadecimal digit. -/
def hexVal (c : Char) : Option ℕ :=
  if c.isDigit then some (digitVal c)
  else if 'a' ≤ c ∧ c ≤ 'f' then some (c.toNat - 87)
  else if 'A' ≤ c ∧ c ≤ 'F' then some (c.toNat - 55)
  else none

/-- Body of a JSON string after the opening quote: the decoded characters
and the rest after the closing quote.  Escapes follow `json.loads` (strict
mode: raw control characters are rejected); astral `\u` surrogate pairs
are decoded as two separate code units, which no claim observes. -/
def parseJString : List Char → Option (List Char × List Char)
  | [] => none
  | '"' :: rest => some ([], rest)
  | '\\' :: 'u' :: h1 :: h2 :: h3 :: h4 :: rest =>
    (match hexVal h1, hexVal h2, hexVal h3, hexVal h4 with
     | some a, some b, some c, some d =>
       (parseJString rest).map
         (fun p => (Char.ofNat (((a * 16 + b) * 16 + c) * 16 + d) :: p.1, p.2))
     | _, _, _, _ => none)
  | '\\' :: e :: rest =>
    (match e with
     | '"' => (parseJString rest).map (fun p => ('"' :: p.1, p.2))
     | '\\' => (parseJString rest).map (fun p => ('\\' :: p.1, p.2))
     | '/' => (parseJString rest).map (fun p => ('/' :: p.1, p.2))
     | 'b' => (parseJString rest).map (fun p => ('\x08' :: p.1, p.2))
     | 'f' => (parseJString rest).map (fun p => ('\x0c' :: p.1, p.2))
     | 'n' => (parseJString rest).map (fun p => ('\n' :: p.1, p.2))
     | 'r' => (parseJString rest).map (fun p => ('\r' :: p.1, p.2))
     | 't' => (parseJString rest).map (fun p => ('\t' :: p.1, p.2))
     | _ => none)
  | c :: rest =>
    if c.toNat < 32 then none
    else (parseJString rest).map (fun p => (c :: p.1, p.2))

/-- Integer digits of a JSON number: `0`, or a nonzero digit followed by
digits (no leading zeros). -/
def parseJIntDigits : List Char → Option (List Char × List Char)
  | [] => none
  | c :: rest =>
    if c == '0' then some ([c], rest)
    else if c.isDigit then
      some (c :: rest.takeWhile Char.isDigit, rest.dropWhile Char.isDigit)
    else none

/-- Optional exponent of a JSON number applied to a mantissa. -/
def parseJExpTail (m : ℚ) : List Char → Option (ℚ × List Char)
  | '+' :: r =>
    let d := r.takeWhile Char.isDigit
    if d.isEmpty then none
    else some (m * (10 : ℚ) ^ (natOfDigits d : ℤ), r.dropWhile Char.isDigit)
  | '-' :: r =>
    let d := r.takeWhile Char.isDigit
    if d.isEmpty then none
    else some (m * (10 : ℚ) ^ (-(natOfDigits d : ℤ)), r.dropWhile Char.isDigit)
  | r =>
    let d := r.takeWhile Char.isDigit
    if d.isEmpty then none
    else some (m * (10 : ℚ) ^ (natOfDigits d : ℤ), r.dropWhile Char.isDigit)

/-- Exponent marker of a JSON number, when present. -/
def parseJExp (m : ℚ) : List Char → Option (ℚ × List Char)
  | 'e' :: r => parseJExpTail m r
  | 'E' :: r => parseJExpTail m r
  | r => some (m, r)

/-- Unsigned JSON number: integer digits, optional fraction (at least one
digit), optional exponent. -/
def parseJNumBody (s : List Char) : Option (ℚ × List Char) :=
  match parseJIntDigits s with
  | none => none
  | some (ip, r1) =>
    match r1 with
    | '.' :: r2 =>
      let fp := r2.takeWhile Char.isDigit
      let r3 := r2.dropWhile Char.isDigit
      if fp.isEmpty then none else parseJExp (ratOfParts ip fp) r3
    | _ => parseJExp (ratOfParts ip []) r1

/-- A JSON number with optional leading minus. -/
def parseJNumber : List Char → Option (ℚ × List Char)
  | '-' :: r => (parseJNumBody r).map (fun p => (-p.1, p.2))
  | r => parseJNumBody r

mutual

/-- One JSON value (fuel-indexed recursion; the fuel only bounds nesting
and is chosen large enough at the entry point). -/
def parseJVal : ℕ → List Char → Option (Json × List Char)
  | 0, _ => none
  | Nat.succ fuel, s =>
    match skipWs s with
    | 'n' :: 'u' :: 'l' :: 'l' :: r => some (Json.jnull, r)
    | 't' :: 'r' :: 'u' :: 'e' :: r => some (Json.jbool true, r)
    | 'f' :: 'a' :: 'l' :: 's' :: 'e' :: r => some (Json.jbool false, r)
    | '"' :: r => (parseJString r).map (fun p => (Json.jstr (String.mk p.1), p.2))
    | '[' :: r =>
      (match skipWs r with
       | ']' :: r2 => some (Json.jarr [], r2)
       | _ => (parseJArrItems fuel r).map (fun p => (Json.jarr p.1, p.2)))
    | '\x7b' :: r =>
      (match skipWs r with
       | '\x7d' :: r2 => some (Json.jobj [], r2)
       | _ => (parseJObjItems fuel r).map (fun p => (Json.jobj p.1, p.2)))
    | s2 => (parseJNumber s2).map (fun p => (Json.jnum p.1, p.2))

/-- Comma-separated JSON values up to the closing bracket. -/
def parseJArrItems : ℕ → List Char → Option (List Json × List Char)
  | 0, _ => none
  | Nat.succ fuel, s =>
    match parseJVal fuel s with
    | none => none
    | some (v, r) =>
      match skipWs r with
      | ',' :: r2 => (parseJArrItems fuel r2).map (fun p => (v :: p.1, p.2))
      | ']' :: r2 => some ([v], r2)
      | _ => none

/-- Comma-separated JSON object members up to the closing brace. -/
def parseJObjItems : ℕ → List Char → Option (List (String × Json) × List Char)
  | 0, _ => none
  | Nat.succ fuel, s =>
    match skipWs s with
    | '"' :: r =>
      (match parseJString r with
       | none => none
       | some (k, r1) =>
         match skipWs r1 with
         | ':' :: r2 =>
           (match parseJVal fuel r2 with
            | none => none
            | some (v, r3) =>
              match skipWs r3 with
              | ',' :: r4 =>
                (parseJObjItems fuel r4).map
                  (fun p => ((String.mk k, v) :: p.1, p.2))
              | '\x7d' :: r4 => some ([(String.mk k, v)], r4)
              | _ => none)
         | _ => none)
    | _ => none

end

/-- `json.loads(out)`: parse one JSON document with nothing but whitespace
around it.  Members of an object are kept in order, duplicates included (a
Python dict keeps the last value per key; key presence, which is all the
claims use, agrees).  The non-standard `NaN`/`Infinity` literals accepted
by `json.loads` are not modelled. -/
def jsonParse (s : String) : Option Json :=
  match parseJVal (2 * s.data.length + 2) s.data with
  | none => none
  | some (v, r) => if (skipWs r).isEmpty then some v else none

/-- The distinguished fallback key of the extractor. -/
def fallbackKey : String := "raw"

/-- The fallback record for unparseable model output (extractors.py line
68): the verbatim raw text under the fallback key. -/
def fallbackRecord (out : String) : Json :=
  Json.jobj [(fallbackKey, Json.jstr out)]

/-- The parsing step of `extract_facts` (extractors.py lines 63-68), as a
function of the generative model's raw output string: `json.loads` the
output, and on any parse failure return the fallback record. -/
def extract_facts (out : String) : Json :=
  match jsonParse out with
  | some j => j
  | none => fallbackRecord out

/-- Whether a parsed result carries a given top-level key (only an object
can). -/
def hasKey (k : String) : Json → Bool
  | Json.jobj l => l.any (fun p => p.1 == k)
  | _ => false

/-- The field keys of the `ZoningFacts` schema (extractors.py lines 5-46). -/
def schemaFieldKeys : List String :=
  ["zoning_district", "district_name", "overlay_districts",
   "max_height_ft", "max_stories", "front_setback_ft", "side_setback_ft",
   "rear_setback_ft", "lot_coverage_max", "floor_area_ratio",
   "parking_ratio", "parking_location",
   "permitted_uses", "conditional_uses", "prohibited_uses",
   "design_standards", "landscaping_requirements", "signage_restrictions",
   "required_permits", "approval_timeline", "public_hearing_required",
   "development_fees", "infrastructure_requirements",
   "variance_potential", "rezoning_options", "development_challenges"]

/-- The configured chunk maximum length (src/app/zoning_rag.py line 33). -/
def chunkSize : ℕ := 1500

/-- The configured chunk overlap (src/app/zoning_rag.py line 33). -/
def chunkOverlap : ℕ := 200

/-- Distance between the starts of consecutive chunks. -/
def chunkStride : ℕ := chunkSize - chunkOverlap

/-- Modelled from the spec: the splitting algorithm itself lives in the
`RecursiveCharacterTextSplitter` library class, not under src/ — the
repository only configures it (src/app/zoning_rag.py line 33).  The spec
describes splitting a document's text into chunks of a fixed maximum
length, each with a fixed trailing overlap against the previous chunk;
this is that splitter at the configured 1500/200. -/
def splitChunks (s : List Char) : List (List Char) :=
  if s.length ≤ chunkSize then [s]
  else s.take chunkSize :: splitChunks (s.drop chunkStride)
termination_by s.length
decreasing_by
  simp only [List.length_drop, chunkStride, chunkSize, chunkOverlap] at *
  omega

/-- The fact record of the spec's envelope example: setbacks 20/10/20 and
coverage fraction 0.6. -/
def exampleFactsC1 : Facts where
  front_setback_ft := Value.vnum 20
  side_setback_ft := Value.vnum 10
  rear_setback_ft := Value.vnum 20
  max_height_ft := Value.vnull
  max_stories := Value.vnull
  lot_coverage_max := Value.vnum 0.6
  floor_area_ratio := Value.vnull
  permitted_uses := Value.vnull
  conditional_uses := Value.vnull
  prohibited_uses := Value.vnull

/-- The fact record of the spec's go/no-go example: "restaurant" permitted
by right, "heavy industrial" prohibited. -/
def exampleFactsC4 : Facts where
  front_setback_ft := Value.vnull
  side_setback_ft := Value.vnull
  rear_setback_ft := Value.vnull
  max_height_ft := Value.vnull
  max_stories := Value.vnull
  lot_coverage_max := Value.vnull
  floor_area_ratio := Value.vnull
  permitted_uses := Value.vlist ["restaurant"]
  conditional_uses := Value.vnull
  prohibited_uses := Value.vlist ["heavy industrial"]

/-- A noisy-extraction record where the same use is both permitted by
right and prohibited. -/
def exampleFactsC4both : Facts where
  front_setback_ft := Value.vnull
  side_setback_ft := Value.vnull
  rear_setback_ft := Value.vnull
  max_height_ft := Value.vnull
  max_stories := Value.vnull
  lot_coverage_max := Value.vnull
  floor_area_ratio := Value.vnull
  permitted_uses := Value.vlist ["restaurant"]
  conditional_uses := Value.vnull
  prohibited_uses := Value.vlist ["restaurant"]

/-- A record with all three setbacks numeric and a permitted use, for the
zero-width counterexample to the claimed override. -/
def exampleFactsC5cex : Facts where
  front_setback_ft := Value.vnum 1
  side_setback_ft := Value.vnum 1
  rear_setback_ft := Value.vnum 1
  max_height_ft := Value.vnull
  max_stories := Value.vnull
  lot_coverage_max := Value.vnull
  floor_area_ratio := Value.vnull
  permitted_uses := Value.vlist ["restaurant"]
  conditional_uses := Value.vnull
  prohibited_uses := Value.vnull

/-- The spec's override example: permitted use but side setback 60 on a
100-foot-wide lot. -/
def exampleFactsC5 : Facts where
  front_setback_ft := Value.vnum 20
  side_setback_ft := Value.vnum 60
  rear_setback_ft := Value.vnum 20
  max_height_ft := Value.vnull
  max_stories := Value.vnull
  lot_coverage_max := Value.vnull
  floor_area_ratio := Value.vnull
  permitted_uses := Value.vlist ["restaurant"]
  conditional_uses := Value.vnull
  prohibited_uses := Value.vnull

/-- A record whose side setback is free text with a unit, as the extractor
may produce: `num` can read it, `float()` cannot. -/
def exampleFactsC6 : Facts where
  front_setback_ft := Value.vnum 20
  side_setback_ft := Value.vstr "60 ft"
  rear_setback_ft := Value.vnum 20
  max_height_ft := Value.vnull
  max_stories := Value.vnull
  lot_coverage_max := Value.vnull
  floor_area_ratio := Value.vnull
  permitted_uses := Value.vlist ["restaurant"]
  conditional_uses := Value.vnull
  prohibited_uses := Value.vnull

/-- A record whose lot-coverage fact is the text "0%", coercing to exactly
zero. -/
def exampleFactsC10 : Facts where
  front_setback_ft := Value.vnum 20
  side_setback_ft := Value.vnum 10
  rear_setback_ft := Value.vnum 20
  max_height_ft := Value.vnull
  max_stories := Value.vnull
  lot_coverage_max := Value.vstr "0%"
  floor_area_ratio := Value.vnull
  permitted_uses := Value.vnull
  conditional_uses := Value.vnull
  prohibited_uses := Value.vnull

/-- A generative-model output that is valid JSON and itself uses the
fallback key. -/
def rawKeyedOutput : String := "\x7b\"raw\": \"hi\"\x7d"

/-- A generative-model output that is not valid JSON. -/
def nonJsonOutput : String := "I could not find the zoning facts."

theorem natOfDigits_nil : natOfDigits [] = 0 := rfl

theorem firstNumAux_no_digit (l : List Char) (h : ∀ c ∈ l, c.isDigit = false) :
    firstNumAux l = none := by
  induction l with
  | nil => rfl
  | cons c r ih =>
    have hc := h c (List.mem_cons_self c r)
    simp only [firstNumAux, hc, Bool.false_eq_true, if_false]
    exact ih (fun x hx => h x (List.mem_cons_of_mem c hx))

/-- C2: the numeric coercion `num` returns the value itself as a float when
it is already numeric (num(7.5) = 7.5), extracts and parses the first
decimal-or-integer numeric substring when the value is text
(num("12 ft") = 12.0), and returns the unavailable marker — not zero, not
an exception — when the value is absent or its text holds no digit at all
(num(None) and num("sixty") are unavailable). -/
theorem C2_num_coercion :
    (∀ q : ℚ, num (Value.vnum q) = some q) ∧
    num (Value.vnum 7.5) = some 7.5 ∧
    num (Value.vstr "12 ft") = some 12 ∧
    num Value.vnull = none ∧
    num (Value.vstr "sixty") = none ∧
    (∀ s : String, (∀ c ∈ s.data, c.isDigit = false) →
      num (Value.vstr s) = none) := by
  refine ⟨fun q => rfl, rfl, ?_, rfl, ?_, ?_⟩
  · have h : firstNumAux "12 ft".data = some (['1', '2'], []) := by decide
    have h2 : natOfDigits ['1', '2'] = 12 := by decide
    simp [num, firstNumber, h, ratOfParts, h2, natOfDigits_nil]
  · have h : firstNumAux "sixty".data = none := by decide
    simp [num, firstNumber, h]
  · intro s h
    simp [num, firstNumber, firstNumAux_no_digit s.data h]

/-- C3: the percentage normalization divides a coerced coverage-maximum
value by 100 exactly when it exceeds 1.5 and leaves it unchanged when it
is at most 1.5; normalizeCoverage(60) = 0.60, normalizeCoverage(0.4) =
0.4, and the boundary normalizeCoverage(1.5) = 1.5 is not divided. -/
theorem C3_coverage_normalization :
    (∀ v : ℚ, 1.5 < v → normalizeCoverage v = v / 100) ∧
    (∀ v : ℚ, v ≤ 1.5 → normalizeCoverage v = v) ∧
    normalizeCoverage 60 = 0.6 ∧
    normalizeCoverage 0.4 = 0.4 ∧
    normalizeCoverage 1.5 = 1.5 := by
  refine ⟨?_, ?_, by norm_num [normalizeCoverage], by norm_num [normalizeCoverage],
    by norm_num [normalizeCoverage]⟩
  · intro v hv
    have hne : v ≠ 0 := ne_of_gt (lt_trans (by norm_num) hv)
    simp only [normalizeCoverage]
    rw [if_pos ⟨hne, hv⟩]
  · intro v hv
    simp only [normalizeCoverage]
    rw [if_neg (fun hc => absurd hc.2 (not_lt.mpr hv))]

/-- C1: for every fact record and lot width W > 0, depth D > 0, the
envelope derivation computes buildable width = max(W − 2·side, 0),
buildable depth = max(D − (front + rear), 0), geometric footprint =
buildable width · buildable depth, with front/side/rear the coerced
setbacks defaulting to 0 when unavailable, and max footprint =
min(geometric footprint, coverage cap) when the coverage cap (lot area ·
coverage fraction) is defined, else the geometric footprint; in
particular W=100, D=150, front=20, side=10, rear=20 gives buildable width
80, depth 110, geometric footprint 8800, and with coverage fraction 0.6
and lot area 15000 the coverage cap is 9000 and max footprint 8800. -/
theorem C1_envelope_arithmetic :
    (∀ (facts : Facts) (W D : ℚ), 0 < W → 0 < D →
      ((zoning_envelope_calc W D facts).front
          = pyOrZero (num facts.front_setback_ft) ∧
       (zoning_envelope_calc W D facts).side
          = pyOrZero (num facts.side_setback_ft) ∧
       (zoning_envelope_calc W D facts).rear
          = pyOrZero (num facts.rear_setback_ft)) ∧
      (zoning_envelope_calc W D facts).lot_area = W * D ∧
      (zoning_envelope_calc W D facts).buildable_width
        = max (W - 2 * (zoning_envelope_calc W D facts).side) 0 ∧
      (zoning_envelope_calc W D facts).buildable_depth
        = max (D - ((zoning_envelope_calc W D facts).front
            + (zoning_envelope_calc W D facts).rear)) 0 ∧
      (zoning_envelope_calc W D facts).geometric_footprint
        = (zoning_envelope_calc W D facts).buildable_width
            * (zoning_envelope_calc W D facts).buildable_depth ∧
      ((zoning_envelope_calc W D facts).coverage_cap = none →
        (zoning_envelope_calc W D facts).max_footprint
          = (zoning_envelope_calc W D facts).geometric_footprint) ∧
      (∀ c : ℚ, (zoning_envelope_calc W D facts).coverage_cap = some c →
        c = (zoning_envelope_calc W D facts).lot_area
              * ((zoning_envelope_calc W D facts).lot_coverage_max.getD 0) ∧
        (zoning_envelope_calc W D facts).max_footprint
          = min (zoning_envelope_calc W D facts).geometric_footprint c)) ∧
    ((zoning_envelope_calc 100 150 exampleFactsC1).buildable_width = 80 ∧
     (zoning_envelope_calc 100 150 exampleFactsC1).buildable_depth = 110 ∧
     (zoning_envelope_calc 100 150 exampleFactsC1).geometric_footprint = 8800 ∧
     (zoning_envelope_calc 100 150 exampleFactsC1).lot_area = 15000 ∧
     (zoning_envelope_calc 100 150 exampleFactsC1).coverage_cap = some 9000 ∧
     (zoning_envelope_calc 100 150 exampleFactsC1).max_footprint = 8800) := by
  constructor
  · intro facts W D hW hD
    refine ⟨⟨rfl, rfl, rfl⟩, rfl, rfl, rfl,
      max_eq_left (mul_nonneg (le_max_right _ _) (le_max_right _ _)), ?_, ?_⟩
    · intro h
      rcases hn : num facts.lot_coverage_max with _ | q
      · simp [zoning_envelope_calc, hn]
      · by_cases hq : normalizeCoverage q = 0
        · simp [zoning_envelope_calc, hn, hq]
        · simp [zoning_envelope_calc, hn, hq] at h
    · intro c hc
      rcases hn : num facts.lot_coverage_max with _ | q
      · simp [zoning_envelope_calc, hn] at hc
      · by_cases hq : normalizeCoverage q = 0
        · simp [zoning_envelope_calc, hn, hq] at hc
        · simp [zoning_envelope_calc, hn, hq] at hc ⊢
          subst hc
          exact ⟨rfl, by rw [if_pos ⟨ne_of_gt hW, ne_of_gt hD⟩]⟩
  · norm_num [zoning_envelope_calc, exampleFactsC1, num, pyOrZero, otruthy,
      normalizeCoverage, max_def, min_def]

/-- C10: a lot-coverage-maximum fact coercing to exactly 0 is treated as
unavailable by the truthiness guards of the envelope derivation: it is not
percentage-normalized, the coverage cap is None rather than 0, and the max
footprint equals the geometric footprint, so an extracted 0% coverage
limit never constrains the footprint. -/
theorem C10_zero_coverage_is_unavailable (facts : Facts) (W D : ℚ)
    (h : num facts.lot_coverage_max = some 0) :
    (zoning_envelope_calc W D facts).lot_coverage_max = some 0 ∧
    (zoning_envelope_calc W D facts).coverage_cap = none ∧
    (zoning_envelope_calc W D facts).max_footprint
      = (zoning_envelope_calc W D facts).geometric_footprint := by
  simp [zoning_envelope_calc, h, normalizeCoverage]

/-- Witness for C10 at the record whose coverage fact is the text "0%". -/
theorem C10_zero_coverage_is_unavailable_witness :
    num exampleFactsC10.lot_coverage_max = some 0 ∧
    ((zoning_envelope_calc 100 150 exampleFactsC10).lot_coverage_max = some 0 ∧
     (zoning_envelope_calc 100 150 exampleFactsC10).coverage_cap = none ∧
     (zoning_envelope_calc 100 150 exampleFactsC10).max_footprint
       = (zoning_envelope_calc 100 150 exampleFactsC10).geometric_footprint) := by
  have h : num exampleFactsC10.lot_coverage_max = some 0 := by
    have h1 : firstNumAux "0%".data = some (['0'], []) := by decide
    have h2 : natOfDigits ['0'] = 0 := by decide
    simp [exampleFactsC10, num, firstNumber, h1, ratOfParts, h2, natOfDigits_nil]
  exact ⟨h, C10_zero_coverage_is_unavailable exampleFactsC10 100 150 h⟩

/-- C4: the feasibility rating checks case-insensitive substring matches
in the fixed order prohibited → by-right → conditional, yielding No-Go, Go
and Caution respectively, and yields Caution with the unclear reason when
no list matches; consequently a use appearing in both the by-right and the
prohibited list is rated No-Go.  (The three use-list fields are required
to be list-shaped or absent: a bare number there makes the Python request
fail with a 500 rather than rate.) -/
theorem C4_use_match_order :
    (∀ (pu : String) (facts : Facts),
      usesListish facts.prohibited_uses = true →
      usesListish facts.permitted_uses = true →
      usesListish facts.conditional_uses = true →
      ((matchesAny (lowerStr pu) (lowerUses facts.prohibited_uses) = true →
        useRating pu facts = (Rating.noGo, [reasonProhibited])) ∧
       (matchesAny (lowerStr pu) (lowerUses facts.prohibited_uses) = false →
        matchesAny (lowerStr pu) (lowerUses facts.permitted_uses) = true →
        useRating pu facts = (Rating.go, [reasonByRight])) ∧
       (matchesAny (lowerStr pu) (lowerUses facts.prohibited_uses) = false →
        matchesAny (lowerStr pu) (lowerUses facts.permitted_uses) = false →
        matchesAny (lowerStr pu) (lowerUses facts.conditional_uses) = true →
        useRating pu facts = (Rating.caution, [reasonConditional])) ∧
       (matchesAny (lowerStr pu) (lowerUses facts.prohibited_uses) = false →
        matchesAny (lowerStr pu) (lowerUses facts.permitted_uses) = false →
        matchesAny (lowerStr pu) (lowerUses facts.conditional_uses) = false →
        useRating pu facts = (Rating.caution, [reasonUnclear])))) ∧
    useRating "restaurant" exampleFactsC4 = (Rating.go, [reasonByRight]) ∧
    useRating "RESTAURANT" exampleFactsC4 = (Rating.go, [reasonByRight]) ∧
    useRating "restaurant" exampleFactsC4both
      = (Rating.noGo, [reasonProhibited]) := by
  refine ⟨?_, by decide, by decide, by decide⟩
  intro pu facts _ _ _
  exact ⟨fun h1 => by simp [useRating, h1],
    fun h1 h2 => by simp [useRating, h1, h2],
    fun h1 h2 h3 => by simp [useRating, h1, h2, h3],
    fun h1 h2 h3 => by simp [useRating, h1, h2, h3]⟩

/-- C5 counterexample: a request with lot width supplied as 0 (the
endpoint accepts it: its lot fields have no positivity constraint), depth
10, and all three setbacks numerically available as 1.  The buildable
width 0 − 2·1 = −2 is ≤ 0, so the claim demands a forced No-Go with the
setbacks reason, but the truthiness guard `req.lot_width_ft and ...`
treats the supplied 0.0 as unavailable and skips the check: the rating
stays Go and the setbacks reason is absent. -/
theorem C5_counterexample :
    pyFloat exampleFactsC5cex.side_setback_ft = some 1 ∧
    pyFloat exampleFactsC5cex.front_setback_ft = some 1 ∧
    pyFloat exampleFactsC5cex.rear_setback_ft = some 1 ∧
    ((0 : ℚ) - 2 * 1 ≤ 0) ∧
    go_no_go "restaurant" exampleFactsC5cex (some 0) (some 10)
      = { rating := Rating.go, reasons := [reasonByRight] } ∧
    reasonSetbacks ∉
      (go_no_go "restaurant" exampleFactsC5cex (some 0) (some 10)).reasons := by
  have hu : useRating "restaurant" exampleFactsC5cex
      = (Rating.go, [reasonByRight]) := by decide
  have hg : go_no_go "restaurant" exampleFactsC5cex (some 0) (some 10)
      = { rating := Rating.go, reasons := [reasonByRight] } := by
    norm_num [go_no_go, otruthy, hu]
  refine ⟨rfl, rfl, rfl, by norm_num, hg, ?_⟩
  rw [hg]
  decide

/-- C5 as amended: when lot width and depth are supplied and nonzero (the
guard is Python truthiness, so a supplied 0 dimension skips the check),
all three setbacks parse as floats, and the buildable width or depth is
≤ 0, the rating is forced to No-Go and the reasons are the use-based
reasons followed by the setbacks-consume-lot reason. -/
theorem C5_dimensional_override (pu : String) (facts : Facts) (W D s f r : ℚ)
    (hW : W ≠ 0) (hD : D ≠ 0)
    (hs : pyFloat facts.side_setback_ft = some s)
    (hf : pyFloat facts.front_setback_ft = some f)
    (hr : pyFloat facts.rear_setback_ft = some r)
    (hbad : W - 2 * s ≤ 0 ∨ D - (f + r) ≤ 0) :
    go_no_go pu facts (some W) (some D)
      = { rating := Rating.noGo,
          reasons := (useRating pu facts).2 ++ [reasonSetbacks] } := by
  simp [go_no_go, otruthy, hs, hf, hr, hW, hD, hbad]
  intro h
  rcases hbad with hb | hb
  · linarith
  · linarith

/-- Witness for C5 as amended, at the spec's own override example:
side = 60 on a 100 × 150 lot with a by-right use gives buildable width
−20 ≤ 0, hence No-Go with both reasons, in order. -/
theorem C5_dimensional_override_witness :
    (100 : ℚ) ≠ 0 ∧ (150 : ℚ) ≠ 0 ∧
    pyFloat exampleFactsC5.side_setback_ft = some 60 ∧
    pyFloat exampleFactsC5.front_setback_ft = some 20 ∧
    pyFloat exampleFactsC5.rear_setback_ft = some 20 ∧
    ((100 : ℚ) - 2 * 60 ≤ 0 ∨ (150 : ℚ) - (20 + 20) ≤ 0) ∧
    go_no_go "restaurant" exampleFactsC5 (some 100) (some 150)
      = { rating := Rating.noGo,
          reasons := [reasonByRight, reasonSetbacks] } := by
  have h := C5_dimensional_override "restaurant" exampleFactsC5 100 150 60 20 20
    (by norm_num) (by norm_num) rfl rfl rfl (Or.inl (by norm_num))
  have hu : useRating "restaurant" exampleFactsC5
      = (Rating.go, [reasonByRight]) := by decide
  refine ⟨by norm_num, by norm_num, rfl, rfl, rfl, Or.inl (by norm_num), ?_⟩
  rw [h, hu]
  rfl

/-- C6 counterexample: a side setback extracted as the text "60 ft".  The
claim says it counts as numerically available in the feasibility
setback-override check and coerces to the 60.0 that `num` yields — which
would force No-Go on a 100-foot-wide lot — but the check uses bare
`float()`, which fails on "60 ft", so the setback is unavailable there,
the override is skipped and the rating stays Go. -/
theorem C6_counterexample :
    num (Value.vstr "60 ft") = some 60 ∧
    pyFloat (Value.vstr "60 ft") = none ∧
    ((100 : ℚ) - 2 * 60 ≤ 0) ∧
    go_no_go "restaurant" exampleFactsC6 (some 100) (some 150)
      = { rating := Rating.go, reasons := [reasonByRight] } ∧
    reasonSetbacks ∉
      (go_no_go "restaurant" exampleFactsC6 (some 100) (some 150)).reasons := by
  have hu : useRating "restaurant" exampleFactsC6
      = (Rating.go, [reasonByRight]) := by decide
  have hn : pyFloat exampleFactsC6.side_setback_ft = none := rfl
  have hg : go_no_go "restaurant" exampleFactsC6 (some 100) (some 150)
      = { rating := Rating.go, reasons := [reasonByRight] } := by
    norm_num [go_no_go, otruthy, hu, hn]
  have h60 : num (Value.vstr "60 ft") = some 60 := by
    have h1 : firstNumAux "60 ft".data = some (['6', '0'], []) := by decide
    have h2 : natOfDigits ['6', '0'] = 60 := by decide
    simp [num, firstNumber, h1, ratOfParts, h2, natOfDigits_nil]
  refine ⟨h60, rfl, by norm_num, hg, ?_⟩
  rw [hg]
  decide

/-- C6 as amended: the first-numeric-substring coercion `num` is applied
to every fact field the envelope derivation reads before arithmetic, but
the feasibility setback-override check instead uses strict `float()`
parsing, under which a textual setback such as "10 ft" is not numerically
available (while `num` reads 10.0 from it); with a textual side setback
the override never fires and the result is the use-based rating alone. -/
theorem C6_coercion_not_uniform :
    (∀ (facts : Facts) (W D : ℚ),
      (zoning_envelope_calc W D facts).front
        = pyOrZero (num facts.front_setback_ft) ∧
      (zoning_envelope_calc W D facts).side
        = pyOrZero (num facts.side_setback_ft) ∧
      (zoning_envelope_calc W D facts).rear
        = pyOrZero (num facts.rear_setback_ft) ∧
      (zoning_envelope_calc W D facts).max_height_ft = num facts.max_height_ft ∧
      (zoning_envelope_calc W D facts).max_stories = num facts.max_stories ∧
      (zoning_envelope_calc W D facts).lot_coverage_max
        = (num facts.lot_coverage_max).map normalizeCoverage ∧
      (zoning_envelope_calc W D facts).far = num facts.floor_area_ratio) ∧
    (∀ (pu : String) (facts : Facts) (lw ld : Option ℚ),
      pyFloat facts.side_setback_ft = none →
      go_no_go pu facts lw ld
        = { rating := (useRating pu facts).1,
            reasons := (useRating pu facts).2 }) ∧
    num (Value.vstr "10 ft") = some 10 ∧
    pyFloat (Value.vstr "10 ft") = none := by
  refine ⟨fun facts W D => ⟨rfl, rfl, rfl, rfl, rfl, rfl, rfl⟩, ?_, ?_, rfl⟩
  · intro pu facts lw ld h
    simp [go_no_go, h]
  · have h1 : firstNumAux "10 ft".data = some (['1', '0'], []) := by decide
    have h2 : natOfDigits ['1', '0'] = 10 := by decide
    simp [num, firstNumber, h1, ratOfParts, h2, natOfDigits_nil]

/-- C7 counterexample: a model output that is the valid JSON object
`\x7b"raw": "hi"\x7d`.  Parsing succeeds, so the structured result is
returned — yet it carries the fallback key, and it is not the fallback
record (whose text field would be the whole verbatim output).  Presence of
the key therefore cannot distinguish a structured result from the
fallback. -/
theorem C7_counterexample :
    jsonParse rawKeyedOutput = some (Json.jobj [(fallbackKey, Json.jstr "hi")]) ∧
    extract_facts rawKeyedOutput = Json.jobj [(fallbackKey, Json.jstr "hi")] ∧
    hasKey fallbackKey (extract_facts rawKeyedOutput) = true ∧
    extract_facts rawKeyedOutput ≠ fallbackRecord rawKeyedOutput := by
  have h : jsonParse rawKeyedOutput
      = some (Json.jobj [(fallbackKey, Json.jstr "hi")]) := by rfl
  have he : extract_facts rawKeyedOutput
      = Json.jobj [(fallbackKey, Json.jstr "hi")] := by
    simp [extract_facts, h]
  refine ⟨h, he, by simp [he, hasKey], ?_⟩
  rw [he]
  simp [fallbackRecord, rawKeyedOutput]

/-- C7 as amended: the extractor returns the parsed value when the output
parses as JSON and otherwise the fallback record, which holds the verbatim
raw text under the single fallback key and none of the schema field keys;
the fallback always carries the key, and key presence distinguishes the
fallback from a structured result whenever the model's own JSON does not
use the fallback key (it cannot when the parsed output itself carries
"raw", as the counterexample shows). -/
theorem C7_extractor_fallback :
    (∀ (out : String) (j : Json), jsonParse out = some j →
      extract_facts out = j) ∧
    (∀ out : String, jsonParse out = none →
      extract_facts out = Json.jobj [(fallbackKey, Json.jstr out)] ∧
      hasKey fallbackKey (extract_facts out) = true ∧
      ∀ k ∈ schemaFieldKeys, hasKey k (extract_facts out) = false) ∧
    (∀ (out : String) (j : Json), jsonParse out = some j →
      hasKey fallbackKey j = false →
      hasKey fallbackKey (extract_facts out) = false) := by
  have hkeys : ∀ k ∈ schemaFieldKeys, (fallbackKey == k) = false := by decide
  refine ⟨?_, ?_, ?_⟩
  · intro out j h
    simp [extract_facts, h]
  · intro out h
    refine ⟨by simp [extract_facts, h, fallbackRecord],
      by simp [extract_facts, h, fallbackRecord, hasKey], ?_⟩
    intro k hk
    simp [extract_facts, h, fallbackRecord, hasKey, hkeys k hk]
  · intro out j h hj
    simp [extract_facts, h, hj]

theorem splitChunks_getD_zero (s : List Char) :
    (splitChunks s).getD 0 [] = s.take chunkSize := by
  rw [splitChunks]
  split
  · next h => simp [List.take_of_length_le h]
  · simp

/-- C9: the chunk splitter never produces a chunk longer than the
configured maximum length (1500 characters), and every pair of
consecutive chunks of the same document shares exactly the configured
overlap (200 characters): the 200-character tail of each chunk beyond the
stride is, letter for letter, the 200-character head of the next chunk. -/
theorem C9_chunking_bounds :
    ∀ s : List Char,
      (∀ c ∈ splitChunks s, c.length ≤ chunkSize) ∧
      (∀ i : ℕ, i + 1 < (splitChunks s).length →
        ((splitChunks s).getD i []).drop chunkStride
          = ((splitChunks s).getD (i + 1) []).take chunkOverlap ∧
        (((splitChunks s).getD i []).drop chunkStride).length
          = chunkOverlap) := by
  intro s
  constructor
  · induction s using splitChunks.induct with
    | case1 s h =>
      rw [splitChunks, if_pos h]
      intro c hc
      simp at hc
      subst hc
      exact h
    | case2 s h ih =>
      rw [splitChunks, if_neg h]
      intro c hc
      rcases List.mem_cons.mp hc with rfl | hc
      · simp [List.length_take]
      · exact ih c hc
  · induction s using splitChunks.induct with
    | case1 s h =>
      intro i hi
      rw [splitChunks, if_pos h] at hi
      simp at hi
    | case2 s h ih =>
      intro i hi
      rw [splitChunks, if_neg h] at hi ⊢
      cases i with
      | zero =>
        simp only [List.getD_cons_zero, List.getD_cons_succ]
        rw [splitChunks_getD_zero]
        constructor
        · rw [List.drop_take, List.take_take]
          norm_num [chunkSize, chunkStride, chunkOverlap]
        · simp only [List.length_drop, List.length_take]
          simp only [chunkSize, chunkStride, chunkOverlap] at h ⊢
          omega
      | succ j =>
        simp only [List.getD_cons_succ]
        exact ih j (by simpa using hi)

end ZoningAgent
